import Mathlib

/-!
Shallow embedding of the client-side core of the livemarketdata
repository:

* the snapshot reconciliation performed in the `useEffect` of
  `MarketDataTable` (per-field change flags/directions, safe numeric
  defaults, derived change / change-percent / trading signal,
  timestamp fallback, retention of the processed snapshot as the next
  baseline);
* the connection state tracking of `App.js` (socket event handlers
  mutating the `isConnected` / `showConnectionModal` /
  `isAttemptingReconnect` / `serverIssueDetected` flags, plus the
  manual-retry handler) and the message / retry-affordance derivation
  of `ConnectionStatus.js`.

JavaScript numbers are idealised as extended rationals (finite value,
+Infinity, -Infinity, NaN); the arithmetic the code performs
(subtraction, division, multiplication by 100, ordering) is given its
ECMAScript semantics on this domain.  Negative zero is not modelled
(the reconciliation never produces it from the payload shapes in
scope).  Raw payload values are modelled by `JSVal`; a string carries
its ECMAScript `ToNumber` interpretation explicitly so that mixed
comparisons and arithmetic can be evaluated.
-/

/-- An idealised ECMAScript number: a finite rational, an infinity, or NaN. -/
inductive JNum where
  | fin (q : ℚ)
  | inf
  | ninf
  | nan
deriving DecidableEq

/-- A raw JSON/JavaScript value as it appears in a quote payload.
A string carries its `ToNumber` value `v` (`JNum.nan` for strings such
as `"abc"` that do not parse as a number). -/
inductive JSVal where
  | num (n : JNum)
  | str (s : String) (v : JNum)
  | nullV
  | undef
deriving DecidableEq

/-- ECMAScript `ToNumber` on the modelled values:
`null` converts to `0`, `undefined` to NaN, a string to its recorded
numeric interpretation. -/
def toNumber : JSVal → JNum
  | .num n => n
  | .str _ v => v
  | .nullV => .fin 0
  | .undef => .nan

/-- ECMAScript truthiness of the modelled values (`0`, NaN, `""`,
`null`, `undefined` are falsy). -/
def jsTruthy : JSVal → Bool
  | .num (.fin q) => decide (q ≠ 0)
  | .num .nan => false
  | .num .inf => true
  | .num .ninf => true
  | .str s _ => decide (s ≠ "")
  | .nullV => false
  | .undef => false

/-- ECMAScript `<` on numbers: any comparison involving NaN is false. -/
def jlt : JNum → JNum → Bool
  | .nan, _ => false
  | _, .nan => false
  | .fin a, .fin b => decide (a < b)
  | .fin _, .inf => true
  | .fin _, .ninf => false
  | .inf, _ => false
  | .ninf, .ninf => false
  | .ninf, _ => true

/-- ECMAScript `>` on numbers. -/
def jgt (a b : JNum) : Bool := jlt b a

/-- ECMAScript subtraction on the idealised numbers. -/
def jsub : JNum → JNum → JNum
  | .nan, _ => .nan
  | _, .nan => .nan
  | .fin a, .fin b => .fin (a - b)
  | .fin _, .inf => .ninf
  | .fin _, .ninf => .inf
  | .inf, .fin _ => .inf
  | .ninf, .fin _ => .ninf
  | .inf, .inf => .nan
  | .inf, .ninf => .inf
  | .ninf, .inf => .ninf
  | .ninf, .ninf => .nan

/-- ECMAScript division on the idealised numbers: a nonzero finite
value divided by `0` gives a signed infinity, `0 / 0` gives NaN
(negative zero is not modelled). -/
def jdiv : JNum → JNum → JNum
  | .nan, _ => .nan
  | _, .nan => .nan
  | .fin a, .fin b =>
      if b = 0 then (if a = 0 then .nan else if 0 < a then .inf else .ninf)
      else .fin (a / b)
  | .fin _, .inf => .fin 0
  | .fin _, .ninf => .fin 0
  | .inf, .fin b => if 0 ≤ b then .inf else .ninf
  | .ninf, .fin b => if 0 ≤ b then .ninf else .inf
  | .inf, _ => .nan
  | .ninf, _ => .nan

/-- Multiplication by the constant `100`, as used for percentages. -/
def jmul100 : JNum → JNum
  | .fin q => .fin (q * 100)
  | .inf => .inf
  | .ninf => .ninf
  | .nan => .nan

/-- Strict equality (`===`) restricted to two numbers; `NaN === NaN` is
false. -/
def jnumStrictEq : JNum → JNum → Bool
  | .fin a, .fin b => decide (a = b)
  | .inf, .inf => true
  | .ninf, .ninf => true
  | _, _ => false

/-- ECMAScript strict inequality `!==` on the modelled values: values
of different types are always strictly unequal; `NaN !== NaN` is
true. -/
def jsStrictNe : JSVal → JSVal → Bool
  | .num a, .num b => !(jnumStrictEq a b)
  | .str s _, .str t _ => decide (s ≠ t)
  | .nullV, .nullV => false
  | .undef, .undef => false
  | _, _ => true

/-- ECMAScript `>` on arbitrary values: two strings compare
lexicographically, otherwise both sides go through `ToNumber` (false if
either is NaN). -/
def jsGt : JSVal → JSVal → Bool
  | .str s _, .str t _ => decide (t < s)
  | a, b => jlt (toNumber b) (toNumber a)

/-- `typeof x === 'number'` (true for NaN and the infinities as well). -/
def isNumberType : JSVal → Bool
  | .num _ => true
  | _ => false

/-- The coercion `typeof x === 'number' ? x : 0` applied to each of the
six numeric fields (MarketDataTable lines 111-116).  Note that NaN has
type `'number'` and is therefore kept. -/
def numOrZero : JSVal → JNum
  | .num n => n
  | _ => .fin 0

/-- The fallback `x || 0` used for the `prev_*` fields
(MarketDataTable lines 140-145). -/
def jsOrZero (v : JSVal) : JSVal := if jsTruthy v then v else .num (.fin 0)

/-- A raw quote payload for one symbol, as delivered in a snapshot: any
field may be absent (`undef`), null, a string, or a number. -/
structure RawQuote where
  symbol : JSVal
  ltp : JSVal
  open_ : JSVal
  high : JSVal
  low : JSVal
  close : JSVal
  volume : JSVal
  timestamp : JSVal
deriving DecidableEq

/-- Per-field change processing (MarketDataTable lines 86-90):
`changed = value !== prev`,
`direction = changed ? (value > prev ? 'up' : 'down') : null`. -/
def fieldChange (value prev : JSVal) : Bool × Option String :=
  let changed := jsStrictNe value prev
  (changed, if changed then some (if jsGt value prev then "up" else "down") else none)

/-- `const change = item.ltp - item.close` (line 93) — computed from the
raw, uncoerced values. -/
def changeOf (item : RawQuote) : JNum := jsub (toNumber item.ltp) (toNumber item.close)

/-- `const change_percent = (change / item.close) * 100` (line 94). -/
def changePercentOf (item : RawQuote) : JNum :=
  jmul100 (jdiv (changeOf item) (toNumber item.close))

/-- `const shortTermTrend = item.ltp > item.close ? 'up' : 'down'` (line 97). -/
def trendOf (item : RawQuote) : String := if jsGt item.ltp item.close then "up" else "down"

/-- `const volatility = ((item.high - item.low) / item.close) * 100` (line 98). -/
def volatilityOf (item : RawQuote) : JNum :=
  jmul100 (jdiv (jsub (toNumber item.high) (toNumber item.low)) (toNumber item.close))

/-- The trading-signal classification (MarketDataTable lines 100-105),
computed from the raw field values. -/
def signalOf (item : RawQuote) : String :=
  if trendOf item == "up" && jgt (changePercentOf item) (.fin 1)
      && jlt (volatilityOf item) (.fin 5) then "BUY"
  else if trendOf item == "down" && jlt (changePercentOf item) (.fin (-1))
      && jlt (volatilityOf item) (.fin 5) then "SELL"
  else "HOLD"

/-- One processed (reconciled) row, mirroring the object literal built
at MarketDataTable lines 109-146. -/
structure ProcRecord where
  symbol : JSVal
  ltp : JNum
  open_ : JNum
  high : JNum
  low : JNum
  close : JNum
  volume : JNum
  change : JNum
  change_percent : JNum
  trading_signal : String
  timestamp : JSVal
  ltp_changed : Bool
  open_changed : Bool
  high_changed : Bool
  low_changed : Bool
  close_changed : Bool
  volume_changed : Bool
  signal_changed : Bool
  ltp_direction : Option String
  open_direction : Option String
  high_direction : Option String
  low_direction : Option String
  close_direction : Option String
  volume_direction : Option String
  prev_ltp : JSVal
  prev_open : JSVal
  prev_high : JSVal
  prev_low : JSVal
  prev_close : JSVal
  prev_volume : JSVal
deriving DecidableEq

/-- Reading a numeric field off `prevDataRef.current[key] || {}`: when
the symbol was not seen before the property access yields `undefined`. -/
def prevFieldVal (prevItem : Option ProcRecord) (f : ProcRecord → JNum) : JSVal :=
  match prevItem with
  | none => .undef
  | some r => .num (f r)

/-- Reading `prevItem.trading_signal`: `undefined` for a first-seen
symbol, otherwise the stored signal string. -/
def prevSignalVal : Option ProcRecord → JSVal
  | none => .undef
  | some r => .str r.trading_signal .nan

/-- Processing of a single snapshot entry (the body of the
`Object.entries(marketData).forEach` at MarketDataTable lines 71-146):
per-field change flags and directions against the previous processed
record, safe numeric defaults, the derived change / change-percent /
trend / volatility / signal values, and the timestamp fallback
`item.timestamp || <now>`. -/
def processItem (now : String) (prevItem : Option ProcRecord) (item : RawQuote) : ProcRecord :=
  let cLtp := fieldChange item.ltp (prevFieldVal prevItem (·.ltp))
  let cOpen := fieldChange item.open_ (prevFieldVal prevItem (·.open_))
  let cHigh := fieldChange item.high (prevFieldVal prevItem (·.high))
  let cLow := fieldChange item.low (prevFieldVal prevItem (·.low))
  let cClose := fieldChange item.close (prevFieldVal prevItem (·.close))
  let cVolume := fieldChange item.volume (prevFieldVal prevItem (·.volume))
  let sig := signalOf item
  { symbol := if jsTruthy item.symbol then item.symbol else .str "UNKNOWN" .nan
    ltp := numOrZero item.ltp
    open_ := numOrZero item.open_
    high := numOrZero item.high
    low := numOrZero item.low
    close := numOrZero item.close
    volume := numOrZero item.volume
    change := changeOf item
    change_percent := changePercentOf item
    trading_signal := sig
    timestamp := if jsTruthy item.timestamp then item.timestamp else .str now .nan
    ltp_changed := cLtp.1
    open_changed := cOpen.1
    high_changed := cHigh.1
    low_changed := cLow.1
    close_changed := cClose.1
    volume_changed := cVolume.1
    signal_changed := jsStrictNe (prevSignalVal prevItem) (.str sig .nan)
    ltp_direction := cLtp.2
    open_direction := cOpen.2
    high_direction := cHigh.2
    low_direction := cLow.2
    close_direction := cClose.2
    volume_direction := cVolume.2
    prev_ltp := jsOrZero (prevFieldVal prevItem (·.ltp))
    prev_open := jsOrZero (prevFieldVal prevItem (·.open_))
    prev_high := jsOrZero (prevFieldVal prevItem (·.high))
    prev_low := jsOrZero (prevFieldVal prevItem (·.low))
    prev_close := jsOrZero (prevFieldVal prevItem (·.close))
    prev_volume := jsOrZero (prevFieldVal prevItem (·.volume)) }

/-- Property lookup `prevDataRef.current[key]` on the retained mapping
(modelled as an association list with the object's distinct keys). -/
def lookupSym (k : String) : List (String × ProcRecord) → Option ProcRecord
  | [] => none
  | p :: rest => if k = p.1 then some p.2 else lookupSym k rest

/-- One run of the reconciliation `useEffect` (MarketDataTable lines
67-151): an empty incoming snapshot returns early and leaves the
retained state untouched (line 68); otherwise every entry of the
incoming snapshot is processed against the retained previous output,
and the result becomes both the rendered data and the next baseline. -/
def reconcile (now : String) (prevState : List (String × ProcRecord))
    (incoming : List (String × RawQuote)) : List (String × ProcRecord) :=
  if incoming.isEmpty then prevState
  else incoming.map (fun p => (p.1, processItem now (lookupSym p.1 prevState) p.2))

/-- The trading-signal algorithm exactly as the specification words it
(spec section 4.1.1), over exact rational arithmetic. -/
def tradingSignalSpec (ltp close high low : ℚ) : String :=
  let change_percent := (ltp - close) / close * 100
  let volatility := (high - low) / close * 100
  let trend := if ltp > close then "up" else "down"
  if trend = "up" ∧ change_percent > 1 ∧ volatility < 5 then "BUY"
  else if trend = "down" ∧ change_percent < -1 ∧ volatility < 5 then "SELL"
  else "HOLD"

/-- A raw quote whose six numeric fields are all well-formed, non-NaN
numbers (the payload shape under which reconciliation is stable). -/
def numericQuote (item : RawQuote) : Bool :=
  (isNumberType item.ltp && !(item.ltp == .num .nan))
    && (isNumberType item.open_ && !(item.open_ == .num .nan))
    && (isNumberType item.high && !(item.high == .num .nan))
    && (isNumberType item.low && !(item.low == .num .nan))
    && (isNumberType item.close && !(item.close == .num .nan))
    && (isNumberType item.volume && !(item.volume == .num .nan))

/-- The client connection flags owned by `App.js` (React state), plus
the transport's own connected flag (`socket.connected`), which the
manual-retry handler branches on. -/
structure AppState where
  isConnected : Bool
  showConnectionModal : Bool
  isAttemptingReconnect : Bool
  serverIssueDetected : Bool
  socketConnected : Bool
deriving DecidableEq

/-- The socket lifecycle events handled in `App.js` (lines 50-110 and
127-137).  `market_data` carries whether the payload passed the
`data && data.data` validity check; `user_retry` is the manual retry
button. -/
inductive SockEvent where
  | connect
  | disconnect (reason : String)
  | connect_error
  | reconnect_attempt
  | reconnect_failed
  | market_data (valid : Bool)
  | user_retry
deriving DecidableEq

/-- The state transition performed by each `App.js` handler. -/
def step (s : AppState) : SockEvent → AppState
  | .connect =>
      { s with isConnected := true, showConnectionModal := false,
               isAttemptingReconnect := false, serverIssueDetected := false,
               socketConnected := true }
  | .disconnect reason =>
      if reason = "io client disconnect" then
        { s with isConnected := false, showConnectionModal := true,
                 isAttemptingReconnect := false, serverIssueDetected := false,
                 socketConnected := false }
      else
        { s with isConnected := false, showConnectionModal := true,
                 isAttemptingReconnect := true,
                 serverIssueDetected :=
                   if reason = "transport error" || reason = "ping timeout" then true
                   else s.serverIssueDetected,
                 socketConnected := false }
  | .connect_error =>
      { s with isConnected := false, showConnectionModal := true,
               isAttemptingReconnect := true, serverIssueDetected := true,
               socketConnected := false }
  | .reconnect_attempt =>
      { s with isAttemptingReconnect := true, showConnectionModal := true }
  | .reconnect_failed =>
      { s with isAttemptingReconnect := false, serverIssueDetected := true }
  | .market_data valid =>
      if valid then
        { s with isConnected := true, showConnectionModal := false,
                 isAttemptingReconnect := false }
      else s
  | .user_retry =>
      if s.socketConnected then { s with serverIssueDetected := false }
      else
        { s with serverIssueDetected := false, showConnectionModal := true,
                 isAttemptingReconnect := true }

/-- Whether the manual-retry handler issues `socket.connect()`: it does
so exactly when the socket is not currently connected
(`App.js` lines 130-136; the socket handle always exists after mount). -/
def userRetryTriggersConnect (s : AppState) : Bool := !s.socketConnected

/-- The state right after mount: the initial React state combined with
the `connectSocket()` call of the mount effect (modal shown, attempt in
progress, no issue flagged, socket not yet connected). -/
def initState : AppState :=
  { isConnected := false, showConnectionModal := true,
    isAttemptingReconnect := true, serverIssueDetected := false,
    socketConnected := false }

/-- The named display states of the specification's
ConnectionStateTracker that are distinguishable in the code's flags
(the spec's `Connecting` carries the same flags as `Reconnecting`). -/
inductive DisplayState where
  | Connected
  | ServerIssueRetrying
  | ServerIssueFailed
  | Reconnecting
  | Disconnected
deriving DecidableEq

/-- The display state determined by the flags, following the branch
structure of `ConnectionStatus.js` lines 7-19. -/
def specState (s : AppState) : DisplayState :=
  if s.isConnected then .Connected
  else if s.serverIssueDetected then
    (if s.isAttemptingReconnect then .ServerIssueRetrying else .ServerIssueFailed)
  else if s.isAttemptingReconnect then .Reconnecting
  else .Disconnected

/-- The message derivation of `ConnectionStatus.js` lines 7-19.  The
initial assignment `'Connecting to server...'` is overwritten on every
path of the subsequent exhaustive if/else chain. -/
def connMessage (s : AppState) : String :=
  if s.isConnected then "Connected to server successfully!"
  else if s.serverIssueDetected then
    (if !s.isAttemptingReconnect then
      "Failed to connect to the server. It appears to be offline or experiencing issues. Please try again later."
    else
      "Unable to connect to the server. It might be offline or experiencing issues. Retrying...")
  else if s.isAttemptingReconnect then "Attempting to reconnect to server..."
  else "Disconnected from server. Please check your connection or retry."

/-- Whether the Retry Connection button is rendered: the modal must be
shown and `!isConnected` must hold (`ConnectionStatus.js` lines 5 and
36-40). -/
def retryShown (s : AppState) : Bool := s.showConnectionModal && !s.isConnected

/-- A well-formed sample quote (all six fields the number 1). -/
def sampleQuote : RawQuote :=
  { symbol := .str "A" .nan, ltp := .num (.fin 1), open_ := .num (.fin 1),
    high := .num (.fin 1), low := .num (.fin 1), close := .num (.fin 1),
    volume := .num (.fin 1), timestamp := .str "ts0" .nan }

/-- A well-formed sample quote (all six fields the number 2). -/
def sampleQuote2 : RawQuote :=
  { symbol := .str "A" .nan, ltp := .num (.fin 2), open_ := .num (.fin 2),
    high := .num (.fin 2), low := .num (.fin 2), close := .num (.fin 2),
    volume := .num (.fin 2), timestamp := .str "ts1" .nan }

/-- A sample processed record: `sampleQuote` reconciled with no prior
baseline. -/
def sampleRec : ProcRecord := processItem "t0" none sampleQuote

/-- The malformed quote of the specification's safe-default example:
`{ltp: "abc", close: null}` with every other field absent. -/
def abcQuote : RawQuote :=
  { symbol := .undef, ltp := .str "abc" .nan, open_ := .undef, high := .undef,
    low := .undef, close := .nullV, volume := .undef, timestamp := .undef }

/-! ## Helper lemmas -/

theorem processItem_trading_signal (now : String) (p : Option ProcRecord) (item : RawQuote) :
    (processItem now p item).trading_signal = signalOf item := rfl

theorem processItem_ltp (now : String) (p : Option ProcRecord) (item : RawQuote) :
    (processItem now p item).ltp = numOrZero item.ltp := rfl

theorem processItem_open (now : String) (p : Option ProcRecord) (item : RawQuote) :
    (processItem now p item).open_ = numOrZero item.open_ := rfl

theorem processItem_high (now : String) (p : Option ProcRecord) (item : RawQuote) :
    (processItem now p item).high = numOrZero item.high := rfl

theorem processItem_low (now : String) (p : Option ProcRecord) (item : RawQuote) :
    (processItem now p item).low = numOrZero item.low := rfl

theorem processItem_close (now : String) (p : Option ProcRecord) (item : RawQuote) :
    (processItem now p item).close = numOrZero item.close := rfl

theorem processItem_volume (now : String) (p : Option ProcRecord) (item : RawQuote) :
    (processItem now p item).volume = numOrZero item.volume := rfl

theorem processItem_change (now : String) (p : Option ProcRecord) (item : RawQuote) :
    (processItem now p item).change = changeOf item := rfl

theorem processItem_ltp_changed (now : String) (p : Option ProcRecord) (item : RawQuote) :
    (processItem now p item).ltp_changed = (fieldChange item.ltp (prevFieldVal p (·.ltp))).1 := rfl

theorem processItem_open_changed (now : String) (p : Option ProcRecord) (item : RawQuote) :
    (processItem now p item).open_changed = (fieldChange item.open_ (prevFieldVal p (·.open_))).1 := rfl

theorem processItem_high_changed (now : String) (p : Option ProcRecord) (item : RawQuote) :
    (processItem now p item).high_changed = (fieldChange item.high (prevFieldVal p (·.high))).1 := rfl

theorem processItem_low_changed (now : String) (p : Option ProcRecord) (item : RawQuote) :
    (processItem now p item).low_changed = (fieldChange item.low (prevFieldVal p (·.low))).1 := rfl

theorem processItem_close_changed (now : String) (p : Option ProcRecord) (item : RawQuote) :
    (processItem now p item).close_changed = (fieldChange item.close (prevFieldVal p (·.close))).1 := rfl

theorem processItem_volume_changed (now : String) (p : Option ProcRecord) (item : RawQuote) :
    (processItem now p item).volume_changed = (fieldChange item.volume (prevFieldVal p (·.volume))).1 := rfl

theorem processItem_signal_changed (now : String) (p : Option ProcRecord) (item : RawQuote) :
    (processItem now p item).signal_changed
      = jsStrictNe (prevSignalVal p) (.str (signalOf item) .nan) := rfl

theorem processItem_ltp_direction (now : String) (p : Option ProcRecord) (item : RawQuote) :
    (processItem now p item).ltp_direction = (fieldChange item.ltp (prevFieldVal p (·.ltp))).2 := rfl

theorem processItem_open_direction (now : String) (p : Option ProcRecord) (item : RawQuote) :
    (processItem now p item).open_direction = (fieldChange item.open_ (prevFieldVal p (·.open_))).2 := rfl

theorem processItem_high_direction (now : String) (p : Option ProcRecord) (item : RawQuote) :
    (processItem now p item).high_direction = (fieldChange item.high (prevFieldVal p (·.high))).2 := rfl

theorem processItem_low_direction (now : String) (p : Option ProcRecord) (item : RawQuote) :
    (processItem now p item).low_direction = (fieldChange item.low (prevFieldVal p (·.low))).2 := rfl

theorem processItem_close_direction (now : String) (p : Option ProcRecord) (item : RawQuote) :
    (processItem now p item).close_direction = (fieldChange item.close (prevFieldVal p (·.close))).2 := rfl

theorem processItem_volume_direction (now : String) (p : Option ProcRecord) (item : RawQuote) :
    (processItem now p item).volume_direction = (fieldChange item.volume (prevFieldVal p (·.volume))).2 := rfl

theorem fieldChange_fin (q p : ℚ) :
    fieldChange (.num (.fin q)) (.num (.fin p)) =
      (decide (q ≠ p), if q ≠ p then some (if p < q then "up" else "down") else none) := by
  by_cases h : q = p <;>
    simp [fieldChange, jsStrictNe, jnumStrictEq, jsGt, toNumber, jlt, h]

theorem fieldChange_first_num (n : JNum) :
    fieldChange (.num n) .undef = (true, some "down") := by
  simp [fieldChange, jsStrictNe, jsGt, toNumber, jlt]

theorem jnumStrictEq_self (n : JNum) (h : n ≠ .nan) : jnumStrictEq n n = true := by
  cases n <;> simp_all [jnumStrictEq]

theorem numOrZero_of_not_number (v : JSVal) (h : isNumberType v = false) :
    numOrZero v = .fin 0 := by
  cases v <;> simp_all [isNumberType, numOrZero]

theorem fieldChange_stable (v : JSVal) (h1 : isNumberType v = true) (h2 : v ≠ .num .nan) :
    (fieldChange v (.num (numOrZero v))).1 = false := by
  cases v with
  | num n =>
      cases n with
      | fin q => simp [fieldChange, jsStrictNe, jnumStrictEq, numOrZero]
      | inf => simp [fieldChange, jsStrictNe, jnumStrictEq, numOrZero]
      | ninf => simp [fieldChange, jsStrictNe, jnumStrictEq, numOrZero]
      | nan => exact absurd rfl h2
  | str s w => simp [isNumberType] at h1
  | nullV => simp [isNumberType] at h1
  | undef => simp [isNumberType] at h1

/-! ## Claim theorems -/

/-- C1: for numeric inputs (with nonzero close, as the claim's formulas
presuppose), the reconciled trading signal is the pure function of
ltp, close, high, low given by the specification's algorithm, and the
two boundary inputs classify as BUY and HOLD respectively. -/
theorem trading_signal_matches_spec :
    (∀ (now : String) (prevItem : Option ProcRecord) (sym o vol ts : JSVal) (l c h lo : ℚ),
      c ≠ 0 →
      (processItem now prevItem
        { symbol := sym, ltp := .num (.fin l), open_ := o, high := .num (.fin h),
          low := .num (.fin lo), close := .num (.fin c), volume := vol,
          timestamp := ts }).trading_signal = tradingSignalSpec l c h lo) ∧
    (processItem "t" none
        { symbol := .undef, ltp := .num (.fin (1010001/10000)), open_ := .undef,
          high := .num (.fin 102), low := .num (.fin 99), close := .num (.fin 100),
          volume := .undef, timestamp := .undef }).trading_signal = "BUY" ∧
    (processItem "t" none
        { symbol := .undef, ltp := .num (.fin (1009/10)), open_ := .undef,
          high := .num (.fin 102), low := .num (.fin 99), close := .num (.fin 100),
          volume := .undef, timestamp := .undef }).trading_signal = "HOLD" := by
  have hmain : ∀ (now : String) (prevItem : Option ProcRecord) (sym o vol ts : JSVal)
      (l c h lo : ℚ), c ≠ 0 →
      (processItem now prevItem
        { symbol := sym, ltp := .num (.fin l), open_ := o, high := .num (.fin h),
          low := .num (.fin lo), close := .num (.fin c), volume := vol,
          timestamp := ts }).trading_signal = tradingSignalSpec l c h lo := by
    intro now prevItem sym o vol ts l c h lo hc
    rw [processItem_trading_signal]
    unfold signalOf trendOf changePercentOf changeOf volatilityOf tradingSignalSpec
    simp only [toNumber, jsub, jdiv, jsGt, jgt, jlt, hc, if_false, jmul100]
    by_cases h1 : c < l <;> by_cases h2 : 1 < (l - c) / c * 100 <;>
      by_cases h3 : (h - lo) / c * 100 < 5 <;> by_cases h4 : (l - c) / c * 100 < -1 <;>
      simp [h1, h2, h3, h4, gt_iff_lt]
  refine ⟨hmain, ?_, ?_⟩
  · rw [hmain "t" none .undef .undef .undef .undef (1010001/10000) 100 102 99 (by norm_num)]
    norm_num [tradingSignalSpec]
  · rw [hmain "t" none .undef .undef .undef .undef (1009/10) 100 102 99 (by norm_num)]
    norm_num [tradingSignalSpec]

/-- C1 witness: the pure-function equality applied at the concrete
numeric input ltp=101, close=100, high=102, low=99. -/
theorem trading_signal_matches_spec_witness :
    (processItem "w" none
      { symbol := .undef, ltp := .num (.fin 101), open_ := .undef,
        high := .num (.fin 102), low := .num (.fin 99), close := .num (.fin 100),
        volume := .undef, timestamp := .undef }).trading_signal
      = tradingSignalSpec 101 100 102 99 :=
  trading_signal_matches_spec.1 "w" none .undef .undef .undef .undef 101 100 102 99
    (by norm_num)

/-- C2 counterexample: a symbol appearing for the first time (no entry
in the previous output) has its ltp flagged as changed (with direction
"down"), contrary to the claim that a first appearance is not flagged. -/
theorem first_seen_field_flagged_changed :
    (processItem "t" none sampleQuote).ltp_changed = true ∧
    (processItem "t" none sampleQuote).ltp_direction = some "down" := by decide

/-- C2 amended: for each of the six numeric fields with numeric values
on both sides, changed is true iff the new value differs from the
previous reconciled value, direction is up/down accordingly and absent
when equal; but a field of a first-seen symbol IS flagged as changed,
with direction "down". -/
theorem field_change_flags_correct
    (now : String) (pr : ProcRecord) (item : RawQuote)
    (ql qo qh qlo qc qv pl po ph plo pc pv : ℚ)
    (hl : item.ltp = .num (.fin ql)) (ho : item.open_ = .num (.fin qo))
    (hh : item.high = .num (.fin qh)) (hlo : item.low = .num (.fin qlo))
    (hc : item.close = .num (.fin qc)) (hv : item.volume = .num (.fin qv))
    (pl1 : pr.ltp = .fin pl) (po1 : pr.open_ = .fin po) (ph1 : pr.high = .fin ph)
    (plo1 : pr.low = .fin plo) (pc1 : pr.close = .fin pc) (pv1 : pr.volume = .fin pv) :
    ((processItem now (some pr) item).ltp_changed = decide (ql ≠ pl) ∧
     (processItem now (some pr) item).ltp_direction =
       (if ql ≠ pl then some (if pl < ql then "up" else "down") else none)) ∧
    ((processItem now (some pr) item).open_changed = decide (qo ≠ po) ∧
     (processItem now (some pr) item).open_direction =
       (if qo ≠ po then some (if po < qo then "up" else "down") else none)) ∧
    ((processItem now (some pr) item).high_changed = decide (qh ≠ ph) ∧
     (processItem now (some pr) item).high_direction =
       (if qh ≠ ph then some (if ph < qh then "up" else "down") else none)) ∧
    ((processItem now (some pr) item).low_changed = decide (qlo ≠ plo) ∧
     (processItem now (some pr) item).low_direction =
       (if qlo ≠ plo then some (if plo < qlo then "up" else "down") else none)) ∧
    ((processItem now (some pr) item).close_changed = decide (qc ≠ pc) ∧
     (processItem now (some pr) item).close_direction =
       (if qc ≠ pc then some (if pc < qc then "up" else "down") else none)) ∧
    ((processItem now (some pr) item).volume_changed = decide (qv ≠ pv) ∧
     (processItem now (some pr) item).volume_direction =
       (if qv ≠ pv then some (if pv < qv then "up" else "down") else none)) ∧
    ((processItem now none item).ltp_changed = true ∧
     (processItem now none item).ltp_direction = some "down") ∧
    ((processItem now none item).open_changed = true ∧
     (processItem now none item).open_direction = some "down") ∧
    ((processItem now none item).high_changed = true ∧
     (processItem now none item).high_direction = some "down") ∧
    ((processItem now none item).low_changed = true ∧
     (processItem now none item).low_direction = some "down") ∧
    ((processItem now none item).close_changed = true ∧
     (processItem now none item).close_direction = some "down") ∧
    ((processItem now none item).volume_changed = true ∧
     (processItem now none item).volume_direction = some "down") := by
  simp only [processItem_ltp_changed, processItem_open_changed, processItem_high_changed,
    processItem_low_changed, processItem_close_changed, processItem_volume_changed,
    processItem_ltp_direction, processItem_open_direction, processItem_high_direction,
    processItem_low_direction, processItem_close_direction, processItem_volume_direction,
    prevFieldVal, hl, ho, hh, hlo, hc, hv, pl1, po1, ph1, plo1, pc1, pv1,
    fieldChange_fin, fieldChange_first_num]
  simp

/-- C2 witness: the amended per-field statement applied to a concrete
previous record with all fields 1 and a new quote with all fields 2. -/
theorem field_change_flags_correct_witness :
    (processItem "w" (some sampleRec) sampleQuote2).ltp_changed = decide ((2 : ℚ) ≠ 1) :=
  (field_change_flags_correct "w" sampleRec sampleQuote2 2 2 2 2 2 2 1 1 1 1 1 1
    rfl rfl rfl rfl rfl rfl rfl rfl rfl rfl rfl rfl).1.1

/-- C4 counterexample: reconciling the raw quote
`{ltp: "abc", close: null}` does not give `change = 0`: the change is
computed from the raw values before coercion and is NaN. -/
theorem coercion_example_change_is_nan :
    (processItem "t" none abcQuote).change = JNum.nan ∧ JNum.nan ≠ JNum.fin 0 := by decide

/-- C4 amended: reconciliation (a total function here, so it never
raises) coerces each of the six numeric fields to 0 when the raw value
is not of number type (missing, null, or a string — NaN, being of
number type, is kept); for the quote `{ltp: "abc", close: null}` the
result has ltp = 0, close = 0, trading_signal = HOLD, but change = NaN
because change is derived from the raw values before coercion. -/
theorem numeric_coercion_safe_defaults :
    (∀ (now : String) (p : Option ProcRecord) (item : RawQuote),
      (isNumberType item.ltp = false → (processItem now p item).ltp = .fin 0) ∧
      (isNumberType item.open_ = false → (processItem now p item).open_ = .fin 0) ∧
      (isNumberType item.high = false → (processItem now p item).high = .fin 0) ∧
      (isNumberType item.low = false → (processItem now p item).low = .fin 0) ∧
      (isNumberType item.close = false → (processItem now p item).close = .fin 0) ∧
      (isNumberType item.volume = false → (processItem now p item).volume = .fin 0)) ∧
    (processItem "t" none abcQuote).ltp = .fin 0 ∧
    (processItem "t" none abcQuote).close = .fin 0 ∧
    (processItem "t" none abcQuote).change = .nan ∧
    (processItem "t" none abcQuote).trading_signal = "HOLD" := by
  refine ⟨?_, by decide, by decide, by decide, by decide⟩
  intro now p item
  exact ⟨fun h => (processItem_ltp now p item).trans (numOrZero_of_not_number _ h),
         fun h => (processItem_open now p item).trans (numOrZero_of_not_number _ h),
         fun h => (processItem_high now p item).trans (numOrZero_of_not_number _ h),
         fun h => (processItem_low now p item).trans (numOrZero_of_not_number _ h),
         fun h => (processItem_close now p item).trans (numOrZero_of_not_number _ h),
         fun h => (processItem_volume now p item).trans (numOrZero_of_not_number _ h)⟩

/-- C4 witness: the coercion statement applied at the concrete
malformed quote (string ltp). -/
theorem numeric_coercion_safe_defaults_witness :
    (processItem "w" none abcQuote).ltp = JNum.fin 0 :=
  (numeric_coercion_safe_defaults.1 "w" none abcQuote).1 rfl

theorem lookupSym_map (g : String → RawQuote → ProcRecord) :
    ∀ (S : List (String × RawQuote)) (k : String) (item : RawQuote),
      (S.map Prod.fst).Nodup → (k, item) ∈ S →
      lookupSym k (S.map (fun p => (p.1, g p.1 p.2))) = some (g k item) := by
  intro S
  induction S with
  | nil => intro k item _ h; cases h
  | cons p rest ih =>
      intro k item hnd hmem
      rcases List.mem_cons.1 hmem with h | h
      · cases h
        simp [lookupSym]
      · have hk : k ≠ p.1 := by
          intro hkp
          have : k ∈ rest.map Prod.fst := List.mem_map.2 ⟨(k, item), h, rfl⟩
          rw [List.map_cons, List.nodup_cons] at hnd
          exact hnd.1 (hkp ▸ this)
        simp only [List.map_cons, lookupSym, if_neg hk]
        exact ih k item (by rw [List.map_cons, List.nodup_cons] at hnd; exact hnd.2) h

theorem second_pass_unchanged (now1 now2 : String) (pv : Option ProcRecord)
    (item : RawQuote) (h : numericQuote item = true) :
    (processItem now2 (some (processItem now1 pv item)) item).ltp_changed = false ∧
    (processItem now2 (some (processItem now1 pv item)) item).open_changed = false ∧
    (processItem now2 (some (processItem now1 pv item)) item).high_changed = false ∧
    (processItem now2 (some (processItem now1 pv item)) item).low_changed = false ∧
    (processItem now2 (some (processItem now1 pv item)) item).close_changed = false ∧
    (processItem now2 (some (processItem now1 pv item)) item).volume_changed = false ∧
    (processItem now2 (some (processItem now1 pv item)) item).signal_changed = false := by
  simp only [numericQuote, Bool.and_eq_true, Bool.not_eq_true', beq_eq_false_iff_ne] at h
  obtain ⟨⟨⟨⟨⟨⟨hl1, hl2⟩, ho1, ho2⟩, hh1, hh2⟩, hlo1, hlo2⟩, hc1, hc2⟩, hv1, hv2⟩ := h
  refine ⟨?_, ?_, ?_, ?_, ?_, ?_, ?_⟩
  · rw [processItem_ltp_changed]
    simpa [prevFieldVal, processItem_ltp] using fieldChange_stable item.ltp hl1 hl2
  · rw [processItem_open_changed]
    simpa [prevFieldVal, processItem_open] using fieldChange_stable item.open_ ho1 ho2
  · rw [processItem_high_changed]
    simpa [prevFieldVal, processItem_high] using fieldChange_stable item.high hh1 hh2
  · rw [processItem_low_changed]
    simpa [prevFieldVal, processItem_low] using fieldChange_stable item.low hlo1 hlo2
  · rw [processItem_close_changed]
    simpa [prevFieldVal, processItem_close] using fieldChange_stable item.close hc1 hc2
  · rw [processItem_volume_changed]
    simpa [prevFieldVal, processItem_volume] using fieldChange_stable item.volume hv1 hv2
  · rw [processItem_signal_changed]
    simp [prevSignalVal, processItem_trading_signal, jsStrictNe]

/-- C3 counterexample: the claimed idempotence fails on a snapshot whose
ltp is the string "abc": the second reconciliation compares the raw
string against the stored coerced 0 and flags a change again. -/
theorem reconcile_not_idempotent_on_malformed :
    ((reconcile "t" (reconcile "t" [] [("A", abcQuote)]) [("A", abcQuote)]).map
      (fun p => p.2.ltp_changed)) = [true] := by decide

/-- C3 amended: reconciling the same snapshot twice yields changed =
false for every field (the six numeric flags and the signal flag) of
every symbol of the second result, provided the snapshot is nonempty,
its keys are distinct, and every numeric field is a well-formed non-NaN
number. -/
theorem reconcile_idempotent_on_numeric_snapshot
    (now1 now2 : String) (P : List (String × ProcRecord)) (S : List (String × RawQuote))
    (hS : S ≠ []) (hnd : (S.map Prod.fst).Nodup)
    (hnum : ∀ p ∈ S, numericQuote p.2 = true) :
    ∀ k r2, (k, r2) ∈ reconcile now2 (reconcile now1 P S) S →
      r2.ltp_changed = false ∧ r2.open_changed = false ∧ r2.high_changed = false ∧
      r2.low_changed = false ∧ r2.close_changed = false ∧ r2.volume_changed = false ∧
      r2.signal_changed = false := by
  intro k r2 hmem
  have hne : S.isEmpty = false := by
    cases S with
    | nil => exact absurd rfl hS
    | cons a b => rfl
  rw [reconcile, if_neg (by simp [hne])] at hmem
  obtain ⟨p, hp, heq⟩ := List.mem_map.1 hmem
  obtain ⟨hk, hr⟩ := Prod.mk.injEq _ _ _ _ ▸ heq
  subst hk
  have hlook : lookupSym p.1 (reconcile now1 P S)
      = some (processItem now1 (lookupSym p.1 P) p.2) := by
    rw [reconcile, if_neg (by simp [hne])]
    exact lookupSym_map (fun k it => processItem now1 (lookupSym k P) it) S p.1 p.2 hnd
      (by simpa using hp)
  rw [← hr, hlook]
  exact second_pass_unchanged now1 now2 (lookupSym p.1 P) p.2 (hnum p hp)

/-- C3 witness: the idempotence statement applied to the concrete
one-symbol numeric snapshot. -/
theorem reconcile_idempotent_witness :
    (processItem "b" (lookupSym "A" (reconcile "a" [] [("A", sampleQuote)]))
      sampleQuote).ltp_changed = false :=
  (reconcile_idempotent_on_numeric_snapshot "a" "b" [] [("A", sampleQuote)]
    (by decide) (by decide) (by decide) "A"
    (processItem "b" (lookupSym "A" (reconcile "a" [] [("A", sampleQuote)])) sampleQuote)
    (by exact List.mem_singleton.2 rfl)).1

/-- C5 counterexample: with an empty incoming snapshot the effect
returns early, so a symbol absent from the snapshot is NOT dropped from
the retained state. -/
theorem empty_snapshot_retains_previous :
    reconcile "t" [("A", sampleRec)] [] = [("A", sampleRec)] := rfl

/-- C5 amended: for a nonempty incoming snapshot the output has exactly
the snapshot's keys (one entry per symbol when the keys are distinct,
symbols absent from the snapshot dropped); an empty snapshot leaves the
previous state unchanged instead. -/
theorem reconcile_output_keys (now : String) (prev : List (String × ProcRecord))
    (S : List (String × RawQuote)) :
    (S ≠ [] → ((reconcile now prev S).map Prod.fst = S.map Prod.fst ∧
      ((S.map Prod.fst).Nodup → ∀ k ∈ S.map Prod.fst,
        ((reconcile now prev S).map Prod.fst).count k = 1))) ∧
    reconcile now prev [] = prev := by
  constructor
  · intro hS
    have hne : S.isEmpty = false := by
      cases S with
      | nil => exact absurd rfl hS
      | cons a b => rfl
    have hmap : (reconcile now prev S).map Prod.fst = S.map Prod.fst := by
      rw [reconcile, if_neg (by simp [hne]), List.map_map]
      rfl
    exact ⟨hmap, fun hnd k hk => by rw [hmap]; exact List.count_eq_one_of_mem hnd hk⟩
  · rfl

/-- C5 witness: the key property applied at a concrete one-symbol
snapshot. -/
theorem reconcile_output_keys_witness :
    (reconcile "w" [] [("A", sampleQuote)]).map Prod.fst
      = [("A", sampleQuote)].map Prod.fst :=
  ((reconcile_output_keys "w" [] [("A", sampleQuote)]).1 (by decide)).1

theorem processItem_now_indep (now1 now2 : String) (p : Option ProcRecord)
    (item : RawQuote) (h : jsTruthy item.timestamp = true) :
    processItem now1 p item = processItem now2 p item := by
  simp [processItem, h]

/-- C8 counterexample: when an item carries no timestamp the output
depends on the receipt clock, so two runs on the same
(previous, incoming) pair differ in the timestamp field. -/
theorem reconcile_timestamp_nondeterministic :
    reconcile "t1" [] [("A", abcQuote)] ≠ reconcile "t2" [] [("A", abcQuote)] := by decide

/-- C8 amended: reconciliation is deterministic in (previous, incoming)
— independent of the receipt clock — provided every item of the
snapshot carries a truthy timestamp; otherwise only the timestamp field
varies with the clock. -/
theorem reconcile_deterministic_with_timestamps
    (now1 now2 : String) (P : List (String × ProcRecord)) (S : List (String × RawQuote))
    (h : ∀ p ∈ S, jsTruthy p.2.timestamp = true) :
    reconcile now1 P S = reconcile now2 P S := by
  unfold reconcile
  by_cases hS : S.isEmpty
  · simp [hS]
  · simp only [hS, if_false, Bool.false_eq_true]
    exact List.map_congr_left fun p hp => by
      rw [processItem_now_indep now1 now2 _ _ (h p hp)]

/-- C8 witness: determinism applied at a concrete snapshot with a
timestamp present. -/
theorem reconcile_deterministic_witness :
    reconcile "x" [] [("A", sampleQuote)] = reconcile "y" [] [("A", sampleQuote)] :=
  reconcile_deterministic_with_timestamps "x" "y" [] [("A", sampleQuote)] (by decide)

/-- C6 counterexample: after connect_error, the reconnect_attempt event
does NOT move the state to Reconnecting — the server-issue flag is kept,
so the state remains ServerIssueRetrying. -/
theorem reconnect_attempt_preserves_server_issue :
    specState (step (step initState .connect_error) .reconnect_attempt)
      = DisplayState.ServerIssueRetrying ∧
    specState (step (step initState .connect_error) .reconnect_attempt)
      ≠ DisplayState.Reconnecting := by decide

/-- C6 amended: the sequence [connect_error, reconnect_attempt,
reconnect_exhausted] drives the state through ServerIssueRetrying →
ServerIssueRetrying (preserved, not Reconnecting) → ServerIssueFailed,
with the retry affordance shown in the initial state and throughout. -/
theorem connection_sequence_end_to_end :
    specState (step initState .connect_error) = DisplayState.ServerIssueRetrying ∧
    specState (step (step initState .connect_error) .reconnect_attempt)
      = DisplayState.ServerIssueRetrying ∧
    specState (step (step (step initState .connect_error) .reconnect_attempt)
      .reconnect_failed) = DisplayState.ServerIssueFailed ∧
    retryShown initState = true ∧
    retryShown (step initState .connect_error) = true ∧
    retryShown (step (step initState .connect_error) .reconnect_attempt) = true ∧
    retryShown (step (step (step initState .connect_error) .reconnect_attempt)
      .reconnect_failed) = true := by decide

/-- C7 counterexample: from the Connected state (socket connected),
user_retry does not yield Reconnecting and does not trigger a new
connection attempt — it only clears the server-issue flag. -/
theorem user_retry_when_connected_no_reconnect :
    specState (step (step initState .connect) .user_retry) ≠ DisplayState.Reconnecting ∧
    userRetryTriggersConnect (step initState .connect) = false := by decide

/-- C7 amended: from any state in which the socket is not connected
(which includes ServerIssueFailed, Disconnected, Reconnecting and
ServerIssueRetrying, whatever the prior history), user_retry clears the
server-issue flag, yields the Reconnecting state and triggers a new
connection attempt. -/
theorem user_retry_reconnects_when_disconnected (s : AppState)
    (hsock : s.socketConnected = false) (hconn : s.isConnected = false) :
    (step s .user_retry).serverIssueDetected = false ∧
    specState (step s .user_retry) = DisplayState.Reconnecting ∧
    userRetryTriggersConnect s = true := by
  rcases s with ⟨c, m, a, v, k⟩
  subst hsock
  subst hconn
  revert m a v
  decide

/-- C7 witness: the retry transition applied from the concrete
ServerIssueFailed state reached by [connect_error, reconnect_exhausted]. -/
theorem user_retry_reconnects_witness :
    specState (step (step (step initState .connect_error) .reconnect_failed)
      .user_retry) = DisplayState.Reconnecting :=
  (user_retry_reconnects_when_disconnected
    (step (step initState .connect_error) .reconnect_failed) rfl rfl).2.1

/-- C9 counterexample: in the initial (Connecting) state the displayed
message is the reconnecting one, not "Connecting to server...", and the
retry affordance IS shown. -/
theorem initial_state_message_and_retry :
    connMessage initState ≠ "Connecting to server..." ∧
    retryShown initState = true := by decide

/-- C9 amended: the string "Connecting to server..." is never displayed
(the initial assignment is dead: every branch of the message chain
overwrites it), and whenever the status modal is shown the retry
affordance appears exactly in the non-Connected states — including the
initial Connecting state, never in Connected. -/
theorem connecting_message_dead_retry_iff_not_connected (s : AppState) :
    connMessage s ≠ "Connecting to server..." ∧
    (s.showConnectionModal = true →
      (retryShown s = true ↔ specState s ≠ DisplayState.Connected)) := by
  rcases s with ⟨c, m, a, v, k⟩
  revert c m a v k
  decide

/-- C9 witness: the retry-affordance equivalence applied at the initial
state (whose modal is shown). -/
theorem connecting_message_dead_witness :
    retryShown initState = true ↔ specState initState ≠ DisplayState.Connected :=
  (connecting_message_dead_retry_iff_not_connected initState).2 rfl

/-- C10: once the server-issue flag is set, a valid market_data event
sets connected and stops the reconnecting indication but leaves the
flag set; no event other than a successful connect, a client-initiated
disconnect, or user_retry clears it; and a subsequent non-client
disconnect immediately surfaces the server-issue message again. -/
theorem server_issue_flag_persistence (s : AppState)
    (hsrv : s.serverIssueDetected = true) :
    ((step s (.market_data true)).serverIssueDetected = true ∧
     (step s (.market_data true)).isConnected = true ∧
     (step s (.market_data true)).isAttemptingReconnect = false) ∧
    (∀ e : SockEvent, e ≠ .connect → e ≠ .user_retry →
      e ≠ .disconnect "io client disconnect" →
      (step s e).serverIssueDetected = true) ∧
    (∀ reason : String, reason ≠ "io client disconnect" →
      (step (step s (.market_data true)) (.disconnect reason)).serverIssueDetected
        = true ∧
      (step (step s (.market_data true)) (.disconnect reason)).showConnectionModal
        = true ∧
      connMessage (step (step s (.market_data true)) (.disconnect reason))
        = "Unable to connect to the server. It might be offline or experiencing issues. Retrying...") := by
  refine ⟨by simp [step, hsrv], ?_, ?_⟩
  · intro e he1 he2 he3
    cases e with
    | connect => exact absurd rfl he1
    | user_retry => exact absurd rfl he2
    | disconnect r =>
        have hr : r ≠ "io client disconnect" := fun hrr => he3 (by rw [hrr])
        simp only [step, if_neg hr]
        by_cases ht : r = "transport error" ∨ r = "ping timeout" <;> simp_all
    | connect_error => simp [step]
    | reconnect_attempt => simp [step, hsrv]
    | reconnect_failed => simp [step]
    | market_data valid => cases valid <;> simp [step, hsrv]
  · intro r hr
    simp only [step, if_neg hr]
    refine ⟨?_, by simp, ?_⟩
    · by_cases ht : r = "transport error" ∨ r = "ping timeout" <;> simp_all
    · by_cases ht : r = "transport error" ∨ r = "ping timeout" <;>
        simp_all [connMessage]

/-- C10 witness: the flag persistence applied at the concrete state
reached by connect_error (flag set), with market_data arriving. -/
theorem server_issue_flag_persistence_witness :
    (step (step initState .connect_error) (.market_data true)).serverIssueDetected
      = true :=
  (server_issue_flag_persistence (step initState .connect_error) rfl).1.1
